import Mathlib

/-!
Shallow embedding of the legacy Windows console renderer:
`rich/_win32_console.py` (the `LegacyWindowsTerm` wrapper over the win32
console API) and `rich/_windows_renderer.py` (`legacy_windows_render`).

The host console is modelled as a record of the registers the code touches
(attribute word, cursor position, screen-buffer size, window origin) plus a
trace of the mutating kernel32 calls actually issued.  Query calls
(`GetConsoleScreenBufferInfo`) are modelled as reads of the state fields.
Python exceptions surface as `Except.error`.
-/

deriving instance DecidableEq for Except

namespace Rich

/-- A mutating host-console primitive call, as issued to kernel32.
Query calls are not traced; only calls that change the console. -/
inductive HostCall where
  | setAttribute (attributes : Nat)
  | setCursorPosition (row col : Int)
  | fillChars (char : Char) (length : Nat) (row col : Int)
  | write (text : String)
  | flush
deriving DecidableEq, Repr

/-- The host console registers read or written by the code:
`wAttributes`, `dwCursorPosition`, `dwSize` and `srWindow` of
`CONSOLE_SCREEN_BUFFER_INFO`. -/
structure ConsoleState where
  wAttributes : Nat
  cursorRow : Int
  cursorCol : Int
  sizeRows : Int
  sizeCols : Int
  windowTop : Int
  windowLeft : Int
deriving DecidableEq, Repr

/-- Console registers plus the ordered trace of issued mutating calls. -/
structure TermState where
  host : ConsoleState
  calls : List HostCall
deriving DecidableEq, Repr

/-- `WindowsCoordinates` named tuple: (row, col), indexed from 0. -/
structure WindowsCoordinates where
  row : Int
  col : Int
deriving DecidableEq, Repr

/-- `wintypes.DWORD(length)`: a 32-bit unsigned conversion. -/
def toDWORD (n : Int) : Nat := (n % (2 ^ 32)).toNat

/-- `SetConsoleCursorPosition`: the wrapper returns False (no kernel call)
when either coordinate is negative; otherwise the kernel call moves the
cursor to exactly the given buffer coordinates. -/
def SetConsoleCursorPosition (s : TermState) (coords : WindowsCoordinates) : TermState :=
  if coords.col < 0 ∨ coords.row < 0 then s
  else
    { s with
      host := { s.host with cursorRow := coords.row, cursorCol := coords.col }
      calls := s.calls ++ [.setCursorPosition coords.row coords.col] }

/-- `SetConsoleTextAttribute`: sets the active attribute word. -/
def SetConsoleTextAttribute (s : TermState) (attributes : Nat) : TermState :=
  { s with
    host := { s.host with wAttributes := attributes }
    calls := s.calls ++ [.setAttribute attributes] }

/-- `FillConsoleOutputCharacter`: the wrapper unpacks `x, y = start` where
`start` is the (row, col) named tuple, so `x` is the row and `y` is the
column, and then rebuilds `WindowsCoordinates(row=y, col=x)`; the COORD the
kernel receives therefore has its axes swapped relative to `start`. -/
def FillConsoleOutputCharacter (s : TermState) (char : Char) (length : Int)
    (start : WindowsCoordinates) : TermState :=
  { s with calls := s.calls ++ [.fillChars char (toDWORD length) start.col start.row] }

/-- Modelled from the spec: the result of the external
`Color.downgrade(ColorSystem.WINDOWS)` collaborator (rich/color.py is not
under src/) exposes a small optional integer `number`; some representations
yield no direct index, hence the option. -/
structure Color where
  number : Option Int
deriving DecidableEq, Repr

/-- Modelled from the spec: a Style exposes an optional foreground color and
an optional background color (rich/style.py is not under src/). -/
structure Style where
  color : Option Color
  bgcolor : Option Color
deriving DecidableEq, Repr

/-- Modelled from the spec: truthiness of a Style value, used by the
renderer's `if style:` test (`Style.__bool__` is not under src/).  Under the
spec's data model a Style carries only the two optional colors, so a Style
is truthy exactly when at least one of them is set. -/
def Style.toBool (st : Style) : Bool :=
  st.color.isSome || st.bgcolor.isSome

/-- Truthiness of the optional style slot of a segment: None is falsy. -/
def styleTruthy : Option Style → Bool
  | none => false
  | some st => st.toBool

/-- `LegacyWindowsTerm.ANSI_TO_WINDOWS`, as a lookup: keys are ANSI color
numbers, values the corresponding Windows Console API color numbers. -/
def ANSI_TO_WINDOWS (n : Int) : Option Nat :=
  if n = 0 then some 0
  else if n = 1 then some 4
  else if n = 2 then some 2
  else if n = 3 then some 6
  else if n = 4 then some 1
  else if n = 5 then some 5
  else if n = 6 then some 3
  else if n = 7 then some 7
  else none

/-- The packed attribute expression `fore + back * 16` used at construction
(`_default_attrs`) and in `write_styled`. -/
def packedAttribute (fore back : Nat) : Nat := fore + back * 16

/-- The renderer state captured by `LegacyWindowsTerm.__init__`. -/
structure LegacyWindowsTerm where
  default_text : Nat
  default_fore : Nat
  default_back : Nat
  default_attrs : Nat
deriving DecidableEq, Repr

/-- `LegacyWindowsTerm.__init__`: captures the host attribute word and the
nibble-split default foreground and background indices. -/
def LegacyWindowsTerm.ofAttributes (wAttributes : Nat) : LegacyWindowsTerm :=
  let default_text := wAttributes
  let default_fore := default_text &&& 7
  let default_back := (default_text >>> 4) &&& 7
  { default_text := default_text
    default_fore := default_fore
    default_back := default_back
    default_attrs := packedAttribute default_fore default_back }

/-- `cursor_position` property: reads `dwCursorPosition`. -/
def cursor_position (s : TermState) : WindowsCoordinates :=
  ⟨s.host.cursorRow, s.host.cursorCol⟩

/-- `screen_size` property: reads `dwSize`. -/
def screen_size (s : TermState) : WindowsCoordinates :=
  ⟨s.host.sizeRows, s.host.sizeCols⟩

/-- `write_text`: write then flush. -/
def write_text (s : TermState) (text : String) : TermState :=
  { s with calls := s.calls ++ [.write text, .flush] }

/-- Foreground resolution in `write_styled`: if the style carries a color,
downgrade it and look its `number` up in ANSI_TO_WINDOWS with
`_default_fore` as the dict-get default (a missing or unmapped number also
falls back); otherwise use `_default_fore`. -/
def resolveForeground (term : LegacyWindowsTerm) (style : Style) : Nat :=
  match style.color with
  | some color =>
      match color.number with
      | some n => (ANSI_TO_WINDOWS n).getD term.default_fore
      | none => term.default_fore
  | none => term.default_fore

/-- Background resolution in `write_styled`, like `resolveForeground` with
`bgcolor` and `_default_back`. -/
def resolveBackground (term : LegacyWindowsTerm) (style : Style) : Nat :=
  match style.bgcolor with
  | some color =>
      match color.number with
      | some n => (ANSI_TO_WINDOWS n).getD term.default_back
      | none => term.default_back
  | none => term.default_back

/-- `write_styled`: set the packed attribute (through `ctypes.c_ushort`,
hence mod 2^16), write the text, then restore `_default_text`. -/
def write_styled (term : LegacyWindowsTerm) (s : TermState) (text : String)
    (style : Style) : TermState :=
  let fore := resolveForeground term style
  let back := resolveBackground term style
  let s := SetConsoleTextAttribute s (packedAttribute fore back % 65536)
  let s := write_text s text
  SetConsoleTextAttribute s term.default_text

/-- `move_cursor_to`. -/
def move_cursor_to (s : TermState) (new_position : WindowsCoordinates) : TermState :=
  SetConsoleCursorPosition s new_position

/-- `erase_line`: fill `screen_size.col` spaces starting at (cursor row, 0). -/
def erase_line (s : TermState) : TermState :=
  let size := screen_size s
  let cursor := cursor_position s
  let cells_to_erase := size.col
  let start_coordinates : WindowsCoordinates := ⟨cursor.row, 0⟩
  FillConsoleOutputCharacter s ' ' cells_to_erase start_coordinates

/-- `erase_end_of_line`: fill from the cursor to the end of the row. -/
def erase_end_of_line (s : TermState) : TermState :=
  let cursor := cursor_position s
  let cells_to_erase := (screen_size s).col - cursor.col
  FillConsoleOutputCharacter s ' ' cells_to_erase cursor

/-- `move_cursor_up`: decrement the cursor row, keep the column. -/
def move_cursor_up (s : TermState) : TermState :=
  let cursor := cursor_position s
  SetConsoleCursorPosition s ⟨cursor.row - 1, cursor.col⟩

/-- `move_cursor_line_start`: column 0 of the current row. -/
def move_cursor_line_start (s : TermState) : TermState :=
  let cursor := cursor_position s
  SetConsoleCursorPosition s ⟨cursor.row, 0⟩

/-- A `ControlCode` tuple, tagged by its `ControlType`.  `unknownTag` is
modelled from the spec: a control code whose type is none of the five
recognized members (forward compatibility with future control types). -/
inductive ControlCode where
  | cursorMoveTo (x y : Int)
  | carriageReturn
  | home
  | cursorUp
  | eraseInLine (mode : Int)
  | unknownTag (tag : Nat)
deriving DecidableEq, Repr

/-- A Python exception escaping the render loop. -/
inductive RenderError where
  | attributeError (missingMethod : String)
deriving DecidableEq, Repr

/-- A `Segment` triple: text, optional style, optional control codes. -/
structure Segment where
  text : String
  style : Option Style
  control : Option (List ControlCode)
deriving DecidableEq, Repr

/-- The `if not control:` test: control is None or an empty sequence. -/
def Segment.noControl (seg : Segment) : Bool :=
  match seg.control with
  | none => true
  | some l => l.isEmpty

/-- Dispatch of one control code in `legacy_windows_render`.  Mode 1 of
ERASE_IN_LINE calls `term.erase_start_of_Line()`, which is not a method of
`LegacyWindowsTerm`, so it raises AttributeError.  A mode outside {0,1,2}
falls through the if/elif chain, as does an unrecognized control type. -/
def processControlCode (s : TermState) (c : ControlCode) : Except RenderError TermState :=
  match c with
  | .cursorMoveTo x y => .ok (move_cursor_to s ⟨y - 1, x - 1⟩)
  | .carriageReturn => .ok (write_text s "\r")
  | .home => .ok (move_cursor_to s ⟨0, 0⟩)
  | .cursorUp => .ok (move_cursor_up s)
  | .eraseInLine mode =>
      if mode = 0 then .ok (erase_end_of_line s)
      else if mode = 1 then .error (.attributeError "erase_start_of_Line")
      else if mode = 2 then .ok (erase_line s)
      else .ok s
  | .unknownTag _ => .ok s

/-- Processing of a control-code sequence, in the order given; an exception
aborts the remainder. -/
def processControlCodes : TermState → List ControlCode → Except RenderError TermState
  | s, [] => .ok s
  | s, c :: rest => (processControlCode s c).bind (fun s1 => processControlCodes s1 rest)

/-- One iteration of the `for segment in buffer` loop: when control is None
or empty, write the text (styled when `if style:` holds); otherwise process
the control codes and do not touch the text. -/
def renderSegment (term : LegacyWindowsTerm) (s : TermState) (seg : Segment) :
    Except RenderError TermState :=
  if seg.noControl then
    match seg.style with
    | some style =>
        if style.toBool then .ok (write_styled term s seg.text style)
        else .ok (write_text s seg.text)
    | none => .ok (write_text s seg.text)
  else
    processControlCodes s (seg.control.getD [])

/-- The segment loop of `legacy_windows_render`. -/
def renderLoop (term : LegacyWindowsTerm) : TermState → List Segment → Except RenderError TermState
  | s, [] => .ok s
  | s, seg :: rest => (renderSegment term s seg).bind (fun s1 => renderLoop term s1 rest)

/-- `legacy_windows_render(buffer, file)`: constructs a `LegacyWindowsTerm`
(capturing the host's current attribute word) and renders each segment. -/
def legacy_windows_render (buffer : List Segment) (s : TermState) :
    Except RenderError TermState :=
  let term := LegacyWindowsTerm.ofAttributes s.host.wAttributes
  renderLoop term s buffer

/-- A concrete host fixture: default attribute 7 (white on black), cursor at
the origin, a 80x25 buffer, window origin at row 2, column 0. -/
def host0 : ConsoleState :=
  { wAttributes := 7
    cursorRow := 0
    cursorCol := 0
    sizeRows := 25
    sizeCols := 80
    windowTop := 2
    windowLeft := 0 }

/-- The fixture state with an empty call trace. -/
def state0 : TermState := { host := host0, calls := [] }

/-- C1 (counterexample): a segment with non-empty text "Hi" and a non-empty
control sequence.  The render emits only the carriage return; the text is
never written, so the claim that the text write is not skipped when control
is present is false. -/
theorem c1_text_skipped_counterexample :
    legacy_windows_render [⟨"Hi", none, some [.carriageReturn]⟩] state0 =
      .ok { host := host0, calls := [.write "\r", .flush] } ∧
    HostCall.write "Hi" ∉ [HostCall.write "\r", HostCall.flush] := by
  decide

/-- A non-empty control sequence sends `renderSegment` into the
control-dispatch branch, ignoring text and style. -/
theorem renderSegment_control_of_ne (term : LegacyWindowsTerm) (s : TermState)
    (text : String) (sty : Option Style) (codes : List ControlCode)
    (h : codes ≠ []) :
    renderSegment term s ⟨text, sty, some codes⟩ = processControlCodes s codes := by
  cases codes with
  | nil => exact absurd rfl h
  | cons c rest => rfl

/-- C1 (amended): when a segment's control sequence is present and
non-empty, `legacy_windows_render`'s dispatch only processes the control
codes, in the order given; the segment's text is not written at all. -/
theorem c1_control_branch_processes_only_codes (term : LegacyWindowsTerm)
    (s : TermState) (text : String) (style : Option Style)
    (codes : List ControlCode) (h : codes ≠ []) :
    renderSegment term s ⟨text, style, some codes⟩ = processControlCodes s codes :=
  renderSegment_control_of_ne term s text style codes h

/-- Witness for the amended C1 at a concrete segment. -/
theorem c1_control_branch_processes_only_codes_witness :
    ([ControlCode.carriageReturn] ≠ []) ∧
    renderSegment (LegacyWindowsTerm.ofAttributes 7) state0
        ⟨"Hi", none, some [.carriageReturn]⟩ =
      processControlCodes state0 [.carriageReturn] :=
  ⟨by decide,
   c1_control_branch_processes_only_codes (LegacyWindowsTerm.ofAttributes 7)
     state0 "Hi" none [.carriageReturn] (by decide)⟩

/-- C3: ANSI_TO_WINDOWS maps every index in 0..7 to a value in 0..7, is
defined on exactly those eight keys, swaps red (1 to 4) and blue (4 to 1),
and fixes black, green, magenta and white. -/
theorem c3_palette_remap_table :
    (∀ n : Fin 8, (ANSI_TO_WINDOWS (n : Int)).isSome = true ∧
      (ANSI_TO_WINDOWS (n : Int)).getD 0 ≤ 7) ∧
    (∀ n : Int, (ANSI_TO_WINDOWS n).isSome = true ↔ (0 ≤ n ∧ n < 8)) ∧
    ANSI_TO_WINDOWS 1 = some 4 ∧ ANSI_TO_WINDOWS 4 = some 1 ∧
    ANSI_TO_WINDOWS 0 = some 0 ∧ ANSI_TO_WINDOWS 2 = some 2 ∧
    ANSI_TO_WINDOWS 5 = some 5 ∧ ANSI_TO_WINDOWS 7 = some 7 := by
  refine ⟨by decide, fun n => ?_, rfl, rfl, rfl, rfl, rfl, rfl⟩
  unfold ANSI_TO_WINDOWS
  split_ifs <;> simp_all
  omega

/-- C4: the packed attribute word is fore + back * 16 for all foreground
and background indices in 0..7, and the nibble extraction
(word &&& 7, (word >>> 4) &&& 7) recovers exactly the pair. -/
theorem c4_packed_attribute_roundtrip :
    ∀ fore back : Fin 8,
      packedAttribute (fore : Nat) (back : Nat) = (fore : Nat) + (back : Nat) * 16 ∧
      packedAttribute (fore : Nat) (back : Nat) &&& 7 = (fore : Nat) ∧
      (packedAttribute (fore : Nat) (back : Nat) >>> 4) &&& 7 = (back : Nat) := by
  decide

/-- C5 (counterexample): rendering cursor-move-to(col=5, row=3) on the
fixture with viewport offset (rowOffset=2, colOffset=0) puts the cursor at
native (row 2, col 4): the viewport row offset is never added, so the
claimed native row 3 - 1 + 2 = 4 is not reached. -/
theorem c5_no_viewport_offset_counterexample :
    state0.host.windowTop = 2 ∧ state0.host.windowLeft = 0 ∧
    legacy_windows_render [⟨"", none, some [.cursorMoveTo 5 3]⟩] state0 =
      .ok { host := { host0 with cursorRow := 2, cursorCol := 4 }
            calls := [.setCursorPosition 2 4] } ∧
    ¬ ((2 : Int) = 3 - 1 + state0.host.windowTop) := by
  decide

/-- C5 (amended): cursor-move-to(x, y) converts the 1-based coordinates to
0-based by subtracting 1 from each axis and issues the absolute position
set with exactly those coordinates; no viewport offset is read or added,
the window-origin fields are untouched, and a negative resulting
coordinate makes the whole operation a silent no-op. -/
theorem c5_cursor_move_to_subtracts_one (s0 : TermState) (x y : Int) :
    legacy_windows_render [⟨"", none, some [.cursorMoveTo x y]⟩] s0 =
      .ok (if x - 1 < 0 ∨ y - 1 < 0 then s0
           else { s0 with
                  host := { s0.host with cursorRow := y - 1, cursorCol := x - 1 }
                  calls := s0.calls ++ [.setCursorPosition (y - 1) (x - 1)] }) := by
  show Except.ok (SetConsoleCursorPosition s0 ⟨y - 1, x - 1⟩) = _
  unfold SetConsoleCursorPosition
  rfl

/-- C6 (code bug): an erase-in-line control code with mode 1 makes the
render raise AttributeError: the dispatch calls `erase_start_of_Line`,
which `LegacyWindowsTerm` does not define, instead of filling the row from
column 0 to the cursor. -/
theorem c6_erase_mode1_raises :
    legacy_windows_render [⟨"", none, some [.eraseInLine 1]⟩] state0 =
      .error (.attributeError "erase_start_of_Line") := by
  decide

/-- C8 (counterexample): removing an unrecognized control code from a
segment whose control held only that code switches the segment to the
text-write branch, so the rendering of the rest of the input is not
unchanged: with the code nothing is emitted, without it the text "Hi" is
written. -/
theorem c8_removal_changes_output_counterexample :
    legacy_windows_render [⟨"Hi", none, some [.unknownTag 99]⟩] state0 =
      .ok { host := host0, calls := [] } ∧
    legacy_windows_render [⟨"Hi", none, some []⟩] state0 =
      .ok { host := host0, calls := [.write "Hi", .flush] } ∧
    ([] : List HostCall) ≠ [.write "Hi", .flush] := by
  decide

/-- C2: after a styled write the active attribute equals the default word
the renderer captured at construction; at the render level, rendering a
single text segment with any optional style (colored, colorless, or
absent) leaves the active attribute equal to the attribute captured before
the call. -/
theorem c2_styled_write_restores_default (term : LegacyWindowsTerm)
    (s : TermState) (text : String) (st : Style) (s0 : TermState)
    (sty : Option Style) :
    (write_styled term s text st).host.wAttributes = term.default_text ∧
    ∃ s1, legacy_windows_render [⟨text, sty, none⟩] s0 = .ok s1 ∧
      s1.host.wAttributes = s0.host.wAttributes := by
  refine ⟨rfl, ?_⟩
  cases sty with
  | none => exact ⟨_, rfl, rfl⟩
  | some st2 =>
      obtain ⟨c, b⟩ := st2
      cases c <;> cases b <;> exact ⟨_, rfl, rfl⟩

/-- C7: a cursor-up control code with the cursor already at row 0 computes
target row -1, which `SetConsoleCursorPosition` silently rejects: the
render returns normally (no exception) with the state untouched. -/
theorem c7_cursor_up_at_row_zero (s0 : TermState) (h : s0.host.cursorRow = 0) :
    legacy_windows_render [⟨"", none, some [.cursorUp]⟩] s0 = .ok s0 := by
  have hc : s0.host.cursorCol < 0 ∨ s0.host.cursorRow - 1 < 0 := Or.inr (by omega)
  show Except.ok (SetConsoleCursorPosition s0 ⟨s0.host.cursorRow - 1, s0.host.cursorCol⟩) = _
  unfold SetConsoleCursorPosition
  rw [if_pos hc]

/-- Witness for C7 at the concrete fixture, whose cursor row is 0. -/
theorem c7_cursor_up_at_row_zero_witness :
    state0.host.cursorRow = 0 ∧
    legacy_windows_render [⟨"", none, some [.cursorUp]⟩] state0 = .ok state0 :=
  ⟨rfl, c7_cursor_up_at_row_zero state0 rfl⟩

/-- An unrecognized control type, or an erase-in-line mode outside {0,1,2},
falls through the dispatch chain and leaves the state untouched. -/
theorem processControlCode_noop (s : TermState) (c : ControlCode)
    (hc : (∃ tag, c = .unknownTag tag) ∨
          (∃ m, c = .eraseInLine m ∧ m ≠ 0 ∧ m ≠ 1 ∧ m ≠ 2)) :
    processControlCode s c = .ok s := by
  rcases hc with ⟨tag, rfl⟩ | ⟨m, rfl, h0, h1, h2⟩
  · rfl
  · simp [processControlCode, h0, h1, h2]

/-- Removing a no-op control code from a control sequence does not change
how the sequence is processed. -/
theorem processControlCodes_removal (c : ControlCode)
    (hc : (∃ tag, c = .unknownTag tag) ∨
          (∃ m, c = .eraseInLine m ∧ m ≠ 0 ∧ m ≠ 1 ∧ m ≠ 2)) :
    ∀ (l1 : List ControlCode) (s : TermState) (l2 : List ControlCode),
      processControlCodes s (l1 ++ c :: l2) = processControlCodes s (l1 ++ l2) := by
  intro l1
  induction l1 with
  | nil =>
      intro s l2
      show (processControlCode s c).bind _ = _
      rw [processControlCode_noop s c hc]
      rfl
  | cons a l1 ih =>
      intro s l2
      show (processControlCode s a).bind _ = (processControlCode s a).bind _
      cases processControlCode s a with
      | error e => rfl
      | ok s1 =>
          show processControlCodes s1 (l1 ++ c :: l2) = processControlCodes s1 (l1 ++ l2)
          exact ih s1 l2

/-- The render loop maps pointwise-equal segments to equal results. -/
theorem renderLoop_congr (term : LegacyWindowsTerm) (pre : List Segment)
    (segA segB : Segment) (post : List Segment)
    (hseg : ∀ s, renderSegment term s segA = renderSegment term s segB) :
    ∀ s, renderLoop term s (pre ++ segA :: post) =
      renderLoop term s (pre ++ segB :: post) := by
  induction pre with
  | nil =>
      intro s
      show (renderSegment term s segA).bind _ = (renderSegment term s segB).bind _
      rw [hseg s]
  | cons a pre ih =>
      intro s
      show (renderSegment term s a).bind _ = (renderSegment term s a).bind _
      cases renderSegment term s a with
      | error e => rfl
      | ok s1 =>
          show renderLoop term s1 (pre ++ segA :: post) =
            renderLoop term s1 (pre ++ segB :: post)
          exact ih s1

/-- C8 (amended): a control code with an unrecognized tag, or an
erase-in-line mode outside {0,1,2}, performs no host operation, and the
whole render is unchanged relative to the same input with that code
removed, provided the segment retains at least one other control code
(removing the only code would switch the segment to the text-write
branch of the dispatch). -/
theorem c8_invalid_code_is_noop (s0 : TermState) (pre post : List Segment)
    (text : String) (sty : Option Style) (l1 l2 : List ControlCode)
    (c : ControlCode)
    (hc : (∃ tag, c = .unknownTag tag) ∨
          (∃ m, c = .eraseInLine m ∧ m ≠ 0 ∧ m ≠ 1 ∧ m ≠ 2))
    (hne : l1 ++ l2 ≠ []) :
    processControlCode s0 c = .ok s0 ∧
    legacy_windows_render (pre ++ ⟨text, sty, some (l1 ++ c :: l2)⟩ :: post) s0 =
      legacy_windows_render (pre ++ ⟨text, sty, some (l1 ++ l2)⟩ :: post) s0 := by
  refine ⟨processControlCode_noop s0 c hc, ?_⟩
  show renderLoop (LegacyWindowsTerm.ofAttributes s0.host.wAttributes) s0 _ =
    renderLoop (LegacyWindowsTerm.ofAttributes s0.host.wAttributes) s0 _
  apply renderLoop_congr
  intro s
  rw [renderSegment_control_of_ne _ s text sty (l1 ++ c :: l2) (by simp),
    renderSegment_control_of_ne _ s text sty (l1 ++ l2) hne]
  exact processControlCodes_removal c hc l1 s l2

/-- Witness for the amended C8: an unrecognized code alongside a carriage
return is a no-op and its removal leaves the render unchanged. -/
theorem c8_invalid_code_is_noop_witness :
    processControlCode state0 (.unknownTag 99) = .ok state0 ∧
    legacy_windows_render [⟨"Hi", none, some [.unknownTag 99, .carriageReturn]⟩] state0 =
      legacy_windows_render [⟨"Hi", none, some [.carriageReturn]⟩] state0 :=
  c8_invalid_code_is_noop state0 [] [] "Hi" none [] [.carriageReturn]
    (.unknownTag 99) (Or.inl ⟨99, rfl⟩) (by decide)

/-- C9: rendering a single no-control segment issues the
set-attribute / write / flush / restore-attribute sequence exactly when
the style is present and carries at least one explicit color; otherwise
the text is written verbatim with no attribute call at all.  (Style
truthiness is modelled from the spec, see `Style.toBool`.) -/
theorem c9_attribute_calls_iff_styled (s0 : TermState) (text : String)
    (sty : Option Style) :
    ∃ s1, legacy_windows_render [⟨text, sty, none⟩] s0 = .ok s1 ∧
      s1.calls = s0.calls ++
        (match sty with
         | some st =>
             if st.color.isSome || st.bgcolor.isSome then
               [HostCall.setAttribute
                  (packedAttribute
                     (resolveForeground
                       (LegacyWindowsTerm.ofAttributes s0.host.wAttributes) st)
                     (resolveBackground
                       (LegacyWindowsTerm.ofAttributes s0.host.wAttributes) st)
                   % 65536),
                HostCall.write text, HostCall.flush,
                HostCall.setAttribute s0.host.wAttributes]
             else [HostCall.write text, HostCall.flush]
         | none => [HostCall.write text, HostCall.flush]) := by
  cases sty with
  | none => exact ⟨_, rfl, by simp [write_text]⟩
  | some st2 =>
      obtain ⟨c, b⟩ := st2
      cases c <;> cases b <;>
        exact ⟨_, rfl, by
          simp [write_styled, write_text, SetConsoleTextAttribute,
            LegacyWindowsTerm.ofAttributes]⟩

/-- Every successful ANSI_TO_WINDOWS lookup, with a default at most 7,
yields a value at most 7. -/
theorem ansiGetD_le_seven (n : Int) (d : Nat) (hd : d ≤ 7) :
    (ANSI_TO_WINDOWS n).getD d ≤ 7 := by
  unfold ANSI_TO_WINDOWS
  split_ifs
  all_goals simp only [Option.getD_some, Option.getD_none]
  all_goals omega

/-- The resolved foreground index is always at most 7. -/
theorem resolveForeground_le_seven (w : Nat) (style : Style) :
    resolveForeground (LegacyWindowsTerm.ofAttributes w) style ≤ 7 := by
  obtain ⟨c, b⟩ := style
  cases c with
  | none => exact Nat.and_le_right
  | some col =>
      obtain ⟨n⟩ := col
      cases n with
      | none => exact Nat.and_le_right
      | some k => exact ansiGetD_le_seven k _ Nat.and_le_right

/-- The resolved background index is always at most 7. -/
theorem resolveBackground_le_seven (w : Nat) (style : Style) :
    resolveBackground (LegacyWindowsTerm.ofAttributes w) style ≤ 7 := by
  obtain ⟨c, b⟩ := style
  cases b with
  | none => exact Nat.and_le_right
  | some col =>
      obtain ⟨n⟩ := col
      cases n with
      | none => exact Nat.and_le_right
      | some k => exact ansiGetD_le_seven k _ Nat.and_le_right

/-- C10: for any captured default attribute word and any style, the word
`write_styled` passes to set-attribute before writing is
fore + back * 16 with resolved fore and back each in [0,7], hence at most
127 (no bright bits); only the final restore carries the raw default. -/
theorem c10_styled_attribute_has_no_bright_bits (w : Nat) (style : Style)
    (s : TermState) (text : String) :
    resolveForeground (LegacyWindowsTerm.ofAttributes w) style ≤ 7 ∧
    resolveBackground (LegacyWindowsTerm.ofAttributes w) style ≤ 7 ∧
    packedAttribute (resolveForeground (LegacyWindowsTerm.ofAttributes w) style)
        (resolveBackground (LegacyWindowsTerm.ofAttributes w) style) ≤ 127 ∧
    (write_styled (LegacyWindowsTerm.ofAttributes w) s text style).calls =
      s.calls ++
        [HostCall.setAttribute
           (packedAttribute
              (resolveForeground (LegacyWindowsTerm.ofAttributes w) style)
              (resolveBackground (LegacyWindowsTerm.ofAttributes w) style)),
         HostCall.write text, HostCall.flush, HostCall.setAttribute w] := by
  have hf := resolveForeground_le_seven w style
  have hb := resolveBackground_le_seven w style
  have hp : packedAttribute (resolveForeground (LegacyWindowsTerm.ofAttributes w) style)
      (resolveBackground (LegacyWindowsTerm.ofAttributes w) style) ≤ 127 := by
    unfold packedAttribute
    omega
  refine ⟨hf, hb, hp, ?_⟩
  have hlt : packedAttribute (resolveForeground (LegacyWindowsTerm.ofAttributes w) style)
      (resolveBackground (LegacyWindowsTerm.ofAttributes w) style) < 65536 := by
    omega
  have hmod := Nat.mod_eq_of_lt hlt
  have hdt : (LegacyWindowsTerm.ofAttributes w).default_text = w := rfl
  simp [write_styled, write_text, SetConsoleTextAttribute, hmod, hdt]

end Rich
